import Mathlib

set_option maxRecDepth 10000

/-!
# Verification of the uC-AVR-library LCD driver (src/library/uc-graphics/lcd.h)

This file gives a shallow embedding of the KS0107/KS0108 LCD driver of the
repository and proves the specification's testable properties about it.

Machine bytes (C `uint8_t`) are modelled as `Nat` with explicit masking where
the C code can overflow; the 1024-byte framebuffer array `uc_lcd_buffer` is a
`List Nat`; the physical transport call `uc_lcd_send` is modelled by appending
a `SendEvent` (its four arguments) to a trace, which lets us speak about
"transport activity".  The two compile-time drawing modes selected by the
`LCD_MODE_BUFFERED` / `LCD_MODE_IMMEDIATE` macros become an `LcdMode` field of
the state, and code that is guarded by `#ifdef` on those macros becomes a
`match` on that field.
-/

/-- One call of `uc_lcd_send(csel1, csel2, command_data, data)` (lcd.h line
543): the logical unit handed to the transport layer. -/
structure SendEvent where
  csel1 : Nat
  csel2 : Nat
  commandData : Nat
  data : Nat
deriving DecidableEq, Repr

/-- The compile-time drawing mode: `LCD_MODE_BUFFERED` or `LCD_MODE_IMMEDIATE`
(lcd.h lines 209-218). -/
inductive LcdMode where
  | buffered
  | immediate
deriving DecidableEq, Repr

/-- The driver's mutable state: the global variables of lcd.h lines 466-491
(`uc_lcd_buffer`, `uc_lcd_inverted`, the per-chip address caches, the grouping
counter `uc_lcd_grouped_pixel_actions_level`, and `uc_lcd_data_changed`),
together with the chosen mode and the trace of transport calls. -/
structure LcdState where
  mode : LcdMode
  buffer : List Nat
  inverted : Nat
  currentColumnChip1 : Nat
  currentColumnChip2 : Nat
  currentPageChip1 : Nat
  currentPageChip2 : Nat
  groupedLevel : Nat
  dataChanged : Nat
  trace : List SendEvent
deriving DecidableEq, Repr

/-- `uc_lcd_send` (lcd.h line 543): one transport transaction, recorded on the
trace.  The physical strategies behind it are modelled separately below. -/
def uc_lcd_send (csel1 csel2 commandData data : Nat) (s : LcdState) : LcdState :=
  { s with trace := s.trace ++ [⟨csel1, csel2, commandData, data⟩] }

/-- `uc_lcd_turn_on` (lcd.h line 612). -/
def uc_lcd_turn_on (s : LcdState) : LcdState :=
  uc_lcd_send 1 1 0 0x3F s

/-- `uc_lcd_turn_off` (lcd.h line 619). -/
def uc_lcd_turn_off (s : LcdState) : LcdState :=
  uc_lcd_send 1 1 0 0x3E s

/-- `uc_lcd_set_startline` (lcd.h line 629). -/
def uc_lcd_set_startline (startline : Nat) (s : LcdState) : LcdState :=
  uc_lcd_send 1 1 0 (0b11000000 ||| startline) s

/-- `uc_lcd_set_page_chip_1` (lcd.h line 640).  In immediate mode the send is
guarded by the page cache `uc_lcd_current_page_chip1`. -/
def uc_lcd_set_page_chip_1 (page : Nat) (s : LcdState) : LcdState :=
  match s.mode with
  | .immediate =>
      if page ≠ s.currentPageChip1 then
        { uc_lcd_send 1 0 0 (0b10111000 ||| (page &&& 0b00000111)) s with
            currentPageChip1 := page }
      else s
  | .buffered => uc_lcd_send 1 0 0 (0b10111000 ||| (page &&& 0b00000111)) s

/-- `uc_lcd_set_page_chip_2` (lcd.h line 663). -/
def uc_lcd_set_page_chip_2 (page : Nat) (s : LcdState) : LcdState :=
  match s.mode with
  | .immediate =>
      if page ≠ s.currentPageChip2 then
        { uc_lcd_send 0 1 0 (0b10111000 ||| (page &&& 0b00000111)) s with
            currentPageChip2 := page }
      else s
  | .buffered => uc_lcd_send 0 1 0 (0b10111000 ||| (page &&& 0b00000111)) s

/-- `uc_lcd_set_column_chip_1` (lcd.h line 686).  NOTE: the C code's guard on
line 688 is `if ( column != uc_lcd_current_page_chip1 )` — it compares the
column against the PAGE cache (while afterwards updating the column cache);
this embedding reproduces that comparison exactly as written. -/
def uc_lcd_set_column_chip_1 (column : Nat) (s : LcdState) : LcdState :=
  match s.mode with
  | .immediate =>
      if column ≠ s.currentPageChip1 then
        { uc_lcd_send 1 0 0 (0b01000000 ||| (column &&& 0b00111111)) s with
            currentColumnChip1 := column }
      else s
  | .buffered => uc_lcd_send 1 0 0 (0b01000000 ||| (column &&& 0b00111111)) s

/-- `uc_lcd_set_column_chip_2` (lcd.h line 709).  Same remark as for chip 1:
line 711 compares `column != uc_lcd_current_page_chip2`. -/
def uc_lcd_set_column_chip_2 (column : Nat) (s : LcdState) : LcdState :=
  match s.mode with
  | .immediate =>
      if column ≠ s.currentPageChip2 then
        { uc_lcd_send 0 1 0 (0b01000000 ||| (column &&& 0b00111111)) s with
            currentColumnChip2 := column }
      else s
  | .buffered => uc_lcd_send 0 1 0 (0b01000000 ||| (column &&& 0b00111111)) s

/-- `uc_lcd_write_chip1` (lcd.h line 732): data write to chip 1; in immediate
mode the column cache advances with the hardware auto-increment (mod 64). -/
def uc_lcd_write_chip1 (data : Nat) (s : LcdState) : LcdState :=
  let s := uc_lcd_send 1 0 1 data s
  match s.mode with
  | .immediate => { s with currentColumnChip1 := (s.currentColumnChip1 + 1) % 64 }
  | .buffered => s

/-- `uc_lcd_write_chip2` (lcd.h line 746). -/
def uc_lcd_write_chip2 (data : Nat) (s : LcdState) : LcdState :=
  let s := uc_lcd_send 0 1 1 data s
  match s.mode with
  | .immediate => { s with currentColumnChip2 := (s.currentColumnChip2 + 1) % 64 }
  | .buffered => s

/-- `uc_lcd_send_buffer_to_lcd` (lcd.h line 777): full-buffer send.  The C
code uses a running `index` that is incremented once per inner iteration; at
chip-1 iteration (page, column) it equals `page * 64 + column`, and at chip-2
iteration it equals `512 + page * 64 + column`, which is how the buffer is
indexed here. -/
def uc_lcd_send_buffer_to_lcd (s : LcdState) : LcdState :=
  let s := uc_lcd_set_column_chip_1 0 s
  let s := (List.range 8).foldl (fun s page =>
      let s := uc_lcd_set_page_chip_1 page s
      (List.range 64).foldl
        (fun s column => uc_lcd_send 1 0 1 (s.buffer.getD (page * 64 + column) 0) s)
        s) s
  let s := uc_lcd_set_column_chip_2 0 s
  let s := (List.range 8).foldl (fun s page =>
      let s := uc_lcd_set_page_chip_2 page s
      (List.range 64).foldl
        (fun s column => uc_lcd_send 0 1 1 (s.buffer.getD (512 + page * 64 + column) 0) s)
        s) s
  let s := uc_lcd_set_page_chip_1 0 s
  uc_lcd_set_page_chip_2 0 s

/-- `uc_lcd_flush` (lcd.h line 813, compiled in buffered mode): send the whole
buffer iff `uc_lcd_data_changed`, then clear that flag. -/
def uc_lcd_flush (s : LcdState) : LcdState :=
  if s.dataChanged ≠ 0 then
    { uc_lcd_send_buffer_to_lcd s with dataChanged := 0 }
  else s

/-- `uc_lcd_is_inverted` (lcd.h line 828). -/
def uc_lcd_is_inverted (s : LcdState) : Nat :=
  s.inverted

/-- `uc_lcd_set_inverted` (lcd.h line 840).  The C byte complement
`~uc_lcd_buffer[i]` on a `uint8_t` is `b ^^^ 255` for the stored byte `b`. -/
def uc_lcd_set_inverted (invert : Nat) (s : LcdState) : LcdState :=
  if invert ≠ s.inverted then
    let s := { s with buffer := s.buffer.map (fun b => b ^^^ 255),
                      inverted := invert }
    match s.mode with
    | .immediate => uc_lcd_send_buffer_to_lcd s
    | .buffered => { s with dataChanged := 1 }
  else s

/-- `uc_lcd_clear` (lcd.h line 862): the C loop writes all 1024 entries of the
fixed-size array, i.e. the buffer becomes `List.replicate 1024` of the
pattern. -/
def uc_lcd_clear (s : LcdState) : LcdState :=
  let s := { s with buffer :=
      if s.inverted ≠ 0 then List.replicate 1024 0xFF else List.replicate 1024 0x00 }
  match s.mode with
  | .buffered => { s with dataChanged := 1 }
  | .immediate => uc_lcd_send_buffer_to_lcd s

/-- `uc_lcd_fill` (lcd.h line 886). -/
def uc_lcd_fill (s : LcdState) : LcdState :=
  let s := { s with buffer :=
      if s.inverted ≠ 0 then List.replicate 1024 0x00 else List.replicate 1024 0xFF }
  match s.mode with
  | .buffered => { s with dataChanged := 1 }
  | .immediate => uc_lcd_send_buffer_to_lcd s

/-- `uc_lcd_enter_grouped_pixel_changes` (lcd.h line 915): `uint8_t`
increment of the grouping counter (wraps at 256). -/
def uc_lcd_enter_grouped_pixel_changes (s : LcdState) : LcdState :=
  { s with groupedLevel := (s.groupedLevel + 1) % 256 }

/-- `uc_lcd_leave_grouped_pixel_changes` (lcd.h line 924): `uint8_t`
decrement (`0 - 1` wraps to `255`), then a full-buffer send exactly when the
counter equals 0. -/
def uc_lcd_leave_grouped_pixel_changes (s : LcdState) : LcdState :=
  let s := { s with groupedLevel := (s.groupedLevel + 255) % 256 }
  if s.groupedLevel = 0 then uc_lcd_send_buffer_to_lcd s else s

/-- `uc_lcd_set_pixel` (lcd.h line 941).  `chip_1 = x < 64` is inlined into
the two places it is used; the `uint8_t` mask `~(1 << bit)` is
`(1 <<< bit) ^^^ 255` (with `bit = y % 8 < 8`). -/
def uc_lcd_set_pixel (x y pixel : Nat) (s : LcdState) : LcdState :=
  if x > 127 then s
  else if y > 63 then s
  else
    let column := x % 64
    let page := y / 8
    let bit := y % 8
    let buffer_index := column + page * 64 + (if x < 64 then 0 else 512)
    let data := s.buffer.getD buffer_index 0
    let data :=
      if s.inverted ≠ 0 then
        if pixel ≠ 0 then data &&& ((1 <<< bit) ^^^ 255)
        else data ||| (1 <<< bit)
      else
        if pixel ≠ 0 then data ||| (1 <<< bit)
        else data &&& ((1 <<< bit) ^^^ 255)
    let s := { s with buffer := s.buffer.set buffer_index data }
    match s.mode with
    | .buffered => { s with dataChanged := 1 }
    | .immediate =>
        if s.groupedLevel = 0 then
          if x < 64 then
            uc_lcd_write_chip1 data
              (uc_lcd_set_column_chip_1 column (uc_lcd_set_page_chip_1 page s))
          else
            uc_lcd_write_chip2 data
              (uc_lcd_set_column_chip_2 column (uc_lcd_set_page_chip_2 page s))
        else s

/-- The AddressMapping of the spec, as computed inside `uc_lcd_set_pixel`
(lcd.h lines 945-951): `index = (x % 64) + (y / 8) * 64`, plus 512 for the
chip-2 half (`x ≥ 64`). -/
def uc_lcd_buffer_index (x y : Nat) : Nat :=
  x % 64 + (y / 8) * 64 + (if x < 64 then 0 else 512)

/-- The state right after C static initialization with a cleared framebuffer:
`uc_lcd_buffer` all zero, `uc_lcd_inverted = 0` (lcd.h line 470), all
mode-specific globals zero, empty trace. -/
def uc_lcd_initial_state (m : LcdMode) : LcdState :=
  { mode := m
    buffer := List.replicate 1024 0
    inverted := 0
    currentColumnChip1 := 0
    currentColumnChip2 := 0
    currentPageChip1 := 0
    currentPageChip2 := 0
    groupedLevel := 0
    dataChanged := 0
    trace := [] }

/-! ## Helper lemmas about list reads and writes -/

lemma getD_set_self (l : List Nat) (i v : Nat) (h : i < l.length) :
    (l.set i v).getD i 0 = v := by
  rw [List.getD_eq_getElem?_getD, List.getElem?_set_self h]
  rfl

lemma getD_set_ne (l : List Nat) {i j : Nat} (v : Nat) (h : i ≠ j) :
    (l.set i v).getD j 0 = l.getD j 0 := by
  rw [List.getD_eq_getElem?_getD, List.getElem?_set_ne h, ← List.getD_eq_getElem?_getD]

lemma getD_replicate (n a i : Nat) (h : i < n) :
    (List.replicate n a).getD i 0 = a := by
  rw [List.getD_eq_getElem?_getD, List.getElem?_replicate]
  simp [h]

/-! ## Preservation of the core state through transport helpers

`CoreEq a b` says the two states agree on everything except the address
caches and the transport trace: exactly the fields that a full-buffer send
must not touch. -/

def CoreEq (a b : LcdState) : Prop :=
  a.mode = b.mode ∧ a.buffer = b.buffer ∧ a.inverted = b.inverted ∧
    a.groupedLevel = b.groupedLevel ∧ a.dataChanged = b.dataChanged

lemma coreEq_refl (a : LcdState) : CoreEq a a :=
  ⟨rfl, rfl, rfl, rfl, rfl⟩

lemma coreEq_trans {a b c : LcdState} (h1 : CoreEq a b) (h2 : CoreEq b c) :
    CoreEq a c := by
  obtain ⟨m1, b1, i1, g1, d1⟩ := h1
  obtain ⟨m2, b2, i2, g2, d2⟩ := h2
  exact ⟨m1.trans m2, b1.trans b2, i1.trans i2, g1.trans g2, d1.trans d2⟩

lemma coreEq_send (c1 c2 cd d : Nat) (s : LcdState) :
    CoreEq (uc_lcd_send c1 c2 cd d s) s :=
  ⟨rfl, rfl, rfl, rfl, rfl⟩

lemma coreEq_set_page_chip_1 (p : Nat) (s : LcdState) :
    CoreEq (uc_lcd_set_page_chip_1 p s) s := by
  unfold uc_lcd_set_page_chip_1
  cases s.mode <;> simp only []
  · exact coreEq_send _ _ _ _ s
  · split
    · exact ⟨rfl, rfl, rfl, rfl, rfl⟩
    · exact coreEq_refl s

lemma coreEq_set_page_chip_2 (p : Nat) (s : LcdState) :
    CoreEq (uc_lcd_set_page_chip_2 p s) s := by
  unfold uc_lcd_set_page_chip_2
  cases s.mode <;> simp only []
  · exact coreEq_send _ _ _ _ s
  · split
    · exact ⟨rfl, rfl, rfl, rfl, rfl⟩
    · exact coreEq_refl s

lemma coreEq_set_column_chip_1 (c : Nat) (s : LcdState) :
    CoreEq (uc_lcd_set_column_chip_1 c s) s := by
  unfold uc_lcd_set_column_chip_1
  cases s.mode <;> simp only []
  · exact coreEq_send _ _ _ _ s
  · split
    · exact ⟨rfl, rfl, rfl, rfl, rfl⟩
    · exact coreEq_refl s

lemma coreEq_set_column_chip_2 (c : Nat) (s : LcdState) :
    CoreEq (uc_lcd_set_column_chip_2 c s) s := by
  unfold uc_lcd_set_column_chip_2
  cases s.mode <;> simp only []
  · exact coreEq_send _ _ _ _ s
  · split
    · exact ⟨rfl, rfl, rfl, rfl, rfl⟩
    · exact coreEq_refl s

lemma coreEq_foldl {f : LcdState → Nat → LcdState}
    (hf : ∀ t a, CoreEq (f t a) t) :
    ∀ (l : List Nat) (s : LcdState), CoreEq (l.foldl f s) s := by
  intro l
  induction l with
  | nil => intro s; exact coreEq_refl s
  | cons a l ih =>
      intro s
      exact coreEq_trans (ih (f s a)) (hf s a)

lemma coreEq_send_buffer (s : LcdState) :
    CoreEq (uc_lcd_send_buffer_to_lcd s) s := by
  unfold uc_lcd_send_buffer_to_lcd
  refine coreEq_trans (coreEq_set_page_chip_2 0 _) ?_
  refine coreEq_trans (coreEq_set_page_chip_1 0 _) ?_
  refine coreEq_trans (coreEq_foldl ?_ _ _) ?_
  · intro t a
    refine coreEq_trans (coreEq_foldl ?_ _ _) (coreEq_set_page_chip_2 a t)
    intro u b
    exact coreEq_send _ _ _ _ u
  refine coreEq_trans (coreEq_set_column_chip_2 0 _) ?_
  refine coreEq_trans (coreEq_foldl ?_ _ _) (coreEq_set_column_chip_1 0 s)
  intro t a
  refine coreEq_trans (coreEq_foldl ?_ _ _) (coreEq_set_page_chip_1 a t)
  intro u b
  exact coreEq_send _ _ _ _ u

lemma send_buffer_buffer (s : LcdState) :
    (uc_lcd_send_buffer_to_lcd s).buffer = s.buffer :=
  (coreEq_send_buffer s).2.1

lemma send_buffer_inverted (s : LcdState) :
    (uc_lcd_send_buffer_to_lcd s).inverted = s.inverted :=
  (coreEq_send_buffer s).2.2.1

lemma send_buffer_groupedLevel (s : LcdState) :
    (uc_lcd_send_buffer_to_lcd s).groupedLevel = s.groupedLevel :=
  (coreEq_send_buffer s).2.2.2.1

/-! ## Counting data transfers on the trace

A "full 1024-byte transmission" shows up on the trace as exactly 1024 events
whose command/data flag is 1 (the inner loops of `uc_lcd_send_buffer_to_lcd`);
all page/column bookkeeping around them are command events (flag 0). -/

/-- Number of data transfers (command/data flag = 1) on a trace. -/
def uc_lcd_data_count (t : List SendEvent) : Nat :=
  (t.filter (fun e => e.commandData == 1)).length

lemma data_count_append (t u : List SendEvent) :
    uc_lcd_data_count (t ++ u) = uc_lcd_data_count t + uc_lcd_data_count u := by
  simp [uc_lcd_data_count, List.filter_append]

lemma data_count_send_cmd (c1 c2 d : Nat) (s : LcdState) :
    uc_lcd_data_count (uc_lcd_send c1 c2 0 d s).trace = uc_lcd_data_count s.trace := by
  simp [uc_lcd_send, data_count_append, uc_lcd_data_count]

lemma data_count_send_data (c1 c2 d : Nat) (s : LcdState) :
    uc_lcd_data_count (uc_lcd_send c1 c2 1 d s).trace =
      uc_lcd_data_count s.trace + 1 := by
  simp [uc_lcd_send, data_count_append, uc_lcd_data_count]

lemma data_count_set_page_chip_1 (p : Nat) (s : LcdState) :
    uc_lcd_data_count (uc_lcd_set_page_chip_1 p s).trace = uc_lcd_data_count s.trace := by
  unfold uc_lcd_set_page_chip_1
  cases s.mode <;> simp only []
  · exact data_count_send_cmd _ _ _ s
  · split
    · exact data_count_send_cmd _ _ _ s
    · rfl

lemma data_count_set_page_chip_2 (p : Nat) (s : LcdState) :
    uc_lcd_data_count (uc_lcd_set_page_chip_2 p s).trace = uc_lcd_data_count s.trace := by
  unfold uc_lcd_set_page_chip_2
  cases s.mode <;> simp only []
  · exact data_count_send_cmd _ _ _ s
  · split
    · exact data_count_send_cmd _ _ _ s
    · rfl

lemma data_count_set_column_chip_1 (c : Nat) (s : LcdState) :
    uc_lcd_data_count (uc_lcd_set_column_chip_1 c s).trace = uc_lcd_data_count s.trace := by
  unfold uc_lcd_set_column_chip_1
  cases s.mode <;> simp only []
  · exact data_count_send_cmd _ _ _ s
  · split
    · exact data_count_send_cmd _ _ _ s
    · rfl

lemma data_count_set_column_chip_2 (c : Nat) (s : LcdState) :
    uc_lcd_data_count (uc_lcd_set_column_chip_2 c s).trace = uc_lcd_data_count s.trace := by
  unfold uc_lcd_set_column_chip_2
  cases s.mode <;> simp only []
  · exact data_count_send_cmd _ _ _ s
  · split
    · exact data_count_send_cmd _ _ _ s
    · rfl

lemma data_count_foldl {f : LcdState → Nat → LcdState} (k : Nat)
    (hf : ∀ t a, uc_lcd_data_count (f t a).trace = uc_lcd_data_count t.trace + k) :
    ∀ (l : List Nat) (s : LcdState),
      uc_lcd_data_count ((l.foldl f s).trace) = uc_lcd_data_count s.trace + k * l.length := by
  intro l
  induction l with
  | nil => intro s; simp
  | cons a l ih =>
      intro s
      rw [List.foldl_cons, ih (f s a), hf s a, List.length_cons]
      ring

lemma data_count_send_buffer (s : LcdState) :
    uc_lcd_data_count (uc_lcd_send_buffer_to_lcd s).trace =
      uc_lcd_data_count s.trace + 1024 := by
  unfold uc_lcd_send_buffer_to_lcd
  rw [data_count_set_page_chip_2, data_count_set_page_chip_1]
  rw [data_count_foldl 64 ?hf2, data_count_set_column_chip_2]
  rw [data_count_foldl 64 ?hf1, data_count_set_column_chip_1]
  case hf1 =>
    intro t a
    rw [data_count_foldl 1 ?inner1, data_count_set_page_chip_1]
    · simp
    case inner1 =>
      intro u b
      exact data_count_send_data _ _ _ u
  case hf2 =>
    intro t a
    rw [data_count_foldl 1 ?inner2, data_count_set_page_chip_2]
    · simp
    case inner2 =>
      intro u b
      exact data_count_send_data _ _ _ u
  simp [List.length_range]

/-! ## Buffer preservation through the immediate-mode write-through path -/

lemma buffer_set_page_chip_1 (p : Nat) (s : LcdState) :
    (uc_lcd_set_page_chip_1 p s).buffer = s.buffer :=
  (coreEq_set_page_chip_1 p s).2.1

lemma buffer_set_page_chip_2 (p : Nat) (s : LcdState) :
    (uc_lcd_set_page_chip_2 p s).buffer = s.buffer :=
  (coreEq_set_page_chip_2 p s).2.1

lemma buffer_set_column_chip_1 (c : Nat) (s : LcdState) :
    (uc_lcd_set_column_chip_1 c s).buffer = s.buffer :=
  (coreEq_set_column_chip_1 c s).2.1

lemma buffer_set_column_chip_2 (c : Nat) (s : LcdState) :
    (uc_lcd_set_column_chip_2 c s).buffer = s.buffer :=
  (coreEq_set_column_chip_2 c s).2.1

lemma buffer_write_chip1 (d : Nat) (s : LcdState) :
    (uc_lcd_write_chip1 d s).buffer = s.buffer := by
  obtain ⟨mo, buf, inv, cc1, cc2, cp1, cp2, gl, dc, tr⟩ := s
  cases mo <;> rfl

lemma buffer_write_chip2 (d : Nat) (s : LcdState) :
    (uc_lcd_write_chip2 d s).buffer = s.buffer := by
  obtain ⟨mo, buf, inv, cc1, cc2, cp1, cp2, gl, dc, tr⟩ := s
  cases mo <;> rfl

/-- The byte written back by `uc_lcd_set_pixel` (lcd.h lines 955-963): the
current byte with bit `y % 8` set or cleared according to the pixel value and
the inversion flag. -/
def uc_lcd_pixel_byte (x y pixel : Nat) (s : LcdState) : Nat :=
  let bit := y % 8
  let data := s.buffer.getD (uc_lcd_buffer_index x y) 0
  if s.inverted ≠ 0 then
    if pixel ≠ 0 then data &&& ((1 <<< bit) ^^^ 255)
    else data ||| (1 <<< bit)
  else
    if pixel ≠ 0 then data ||| (1 <<< bit)
    else data &&& ((1 <<< bit) ^^^ 255)

lemma set_pixel_buffer (x y pixel : Nat) (s : LcdState)
    (hx : ¬ 127 < x) (hy : ¬ 63 < y) :
    (uc_lcd_set_pixel x y pixel s).buffer =
      s.buffer.set (uc_lcd_buffer_index x y) (uc_lcd_pixel_byte x y pixel s) := by
  obtain ⟨mo, buf, inv, cc1, cc2, cp1, cp2, gl, dc, tr⟩ := s
  simp only [uc_lcd_set_pixel, uc_lcd_buffer_index, uc_lcd_pixel_byte]
  rw [if_neg hx, if_neg hy]
  cases mo
  · rfl
  · simp only []
    split
    · split
      · rw [buffer_write_chip1, buffer_set_column_chip_1, buffer_set_page_chip_1]
      · rw [buffer_write_chip2, buffer_set_column_chip_2, buffer_set_page_chip_2]
    · rfl

lemma buffer_index_lt (x y : Nat) (hx : x ≤ 127) (hy : y ≤ 63) :
    uc_lcd_buffer_index x y < 1024 := by
  unfold uc_lcd_buffer_index
  have h1 : x % 64 < 64 := Nat.mod_lt _ (by omega)
  have h2 : y / 8 ≤ 7 := by omega
  split <;> omega

lemma testBit_255 (i : Nat) (h : i < 8) : (255 : Nat).testBit i = true := by
  have h2 : (255 : Nat) = 2 ^ 8 - 1 := by norm_num
  rw [h2, Nat.testBit_two_pow_sub_one]
  simp [h]

/-! ## Claim theorems -/

/-- Claim C1: for every x in [0,127] and y in [0,63], after
`set_pixel(x, y, true)` (pixel value 1) the framebuffer byte at the
AddressMapping-derived index `(x % 64) + (y / 8) * 64` (plus 512 when
`x ≥ 64`) has bit `y % 8` set when the inversion flag is clear, and cleared
when the inversion flag is set — regardless of the byte's prior value. -/
theorem uc_lcd_set_pixel_true_sets_mapped_bit (x y : Nat) (s : LcdState)
    (hx : x ≤ 127) (hy : y ≤ 63) (hlen : s.buffer.length = 1024) :
    (s.inverted = 0 →
      ((uc_lcd_set_pixel x y 1 s).buffer.getD (uc_lcd_buffer_index x y) 0).testBit (y % 8)
        = true) ∧
    (s.inverted ≠ 0 →
      ((uc_lcd_set_pixel x y 1 s).buffer.getD (uc_lcd_buffer_index x y) 0).testBit (y % 8)
        = false) := by
  have hidx : uc_lcd_buffer_index x y < 1024 := buffer_index_lt x y hx hy
  have h8 : y % 8 < 8 := Nat.mod_lt _ (by omega)
  rw [set_pixel_buffer x y 1 s (by omega) (by omega),
      getD_set_self _ _ _ (by rw [hlen]; exact hidx)]
  constructor
  · intro h0
    simp [uc_lcd_pixel_byte, h0, Nat.testBit_or, Nat.shiftLeft_eq,
      Nat.testBit_two_pow_self]
  · intro h1
    simp [uc_lcd_pixel_byte, h1, Nat.testBit_and, Nat.testBit_xor, Nat.shiftLeft_eq,
      Nat.testBit_two_pow_self, testBit_255 _ h8]

/-- Witness for C1: concrete instance at (x, y) = (5, 3) on the initial
buffered-mode state. -/
theorem uc_lcd_set_pixel_true_sets_mapped_bit_witness :
    5 ≤ 127 ∧ 3 ≤ 63 ∧ (uc_lcd_initial_state LcdMode.buffered).buffer.length = 1024 ∧
    (((uc_lcd_initial_state LcdMode.buffered).inverted = 0 →
      ((uc_lcd_set_pixel 5 3 1 (uc_lcd_initial_state LcdMode.buffered)).buffer.getD
          (uc_lcd_buffer_index 5 3) 0).testBit (3 % 8) = true) ∧
    ((uc_lcd_initial_state LcdMode.buffered).inverted ≠ 0 →
      ((uc_lcd_set_pixel 5 3 1 (uc_lcd_initial_state LcdMode.buffered)).buffer.getD
          (uc_lcd_buffer_index 5 3) 0).testBit (3 % 8) = false)) :=
  ⟨by omega, by omega, by simp [uc_lcd_initial_state],
    uc_lcd_set_pixel_true_sets_mapped_bit 5 3 (uc_lcd_initial_state LcdMode.buffered)
      (by omega) (by omega) (by simp [uc_lcd_initial_state])⟩

/-- Claim C2 counterexample: starting from a non-inverted, cleared
framebuffer, `set_pixel(63, 7, true)` does NOT set bit 7 of framebuffer
index 511 (the claim's `63 + 7*64`): since `page = 7 / 8 = 0`, the write
lands at index 63 and byte 511 stays zero. -/
theorem uc_lcd_set_pixel_63_7_misses_511 :
    ((uc_lcd_set_pixel 63 7 1 (uc_lcd_initial_state LcdMode.buffered)).buffer.getD 511 0).testBit 7
      = false := by
  decide

/-- Claim C2 (amended): the boundary cases map as the code computes them:
`set_pixel(0,0,true)` sets bit 0 of index 0; `set_pixel(63,7,true)` sets
bit 7 of index 63 (page `7 / 8 = 0`, so `63 + 0*64 = 63`, not 511);
`set_pixel(64,0,true)` sets bit 0 of index 512; `set_pixel(127,63,true)`
sets bit 7 of index 1023 — starting from a non-inverted, cleared
framebuffer. -/
theorem uc_lcd_boundary_mapping :
    ((uc_lcd_set_pixel 0 0 1 (uc_lcd_initial_state LcdMode.buffered)).buffer.getD 0 0).testBit 0
      = true ∧
    ((uc_lcd_set_pixel 63 7 1 (uc_lcd_initial_state LcdMode.buffered)).buffer.getD 63 0).testBit 7
      = true ∧
    uc_lcd_buffer_index 63 7 = 63 ∧
    ((uc_lcd_set_pixel 64 0 1 (uc_lcd_initial_state LcdMode.buffered)).buffer.getD 512 0).testBit 0
      = true ∧
    ((uc_lcd_set_pixel 127 63 1 (uc_lcd_initial_state LcdMode.buffered)).buffer.getD 1023 0).testBit 7
      = true := by
  decide

/-- Claim C3: for out-of-range coordinates (x > 127 or y > 63) and any pixel
value, `uc_lcd_set_pixel` leaves every framebuffer byte, the inversion flag
and the transport trace unchanged (it is the whole state that is unchanged:
a silent no-op). -/
theorem uc_lcd_set_pixel_out_of_range (x y pixel : Nat) (s : LcdState)
    (h : 127 < x ∨ 63 < y) :
    uc_lcd_set_pixel x y pixel s = s ∧
    (uc_lcd_set_pixel x y pixel s).buffer = s.buffer ∧
    (uc_lcd_set_pixel x y pixel s).inverted = s.inverted ∧
    (uc_lcd_set_pixel x y pixel s).trace = s.trace := by
  have heq : uc_lcd_set_pixel x y pixel s = s := by
    unfold uc_lcd_set_pixel
    by_cases hx : 127 < x
    · rw [if_pos hx]
    · rw [if_neg hx, if_pos (h.resolve_left hx)]
  exact ⟨heq, by rw [heq], by rw [heq], by rw [heq]⟩

/-- Witness for C3: concrete out-of-range call (x = 200). -/
theorem uc_lcd_set_pixel_out_of_range_witness :
    (127 < 200 ∨ 63 < (0 : Nat)) ∧
    uc_lcd_set_pixel 200 0 1 (uc_lcd_initial_state LcdMode.buffered)
      = uc_lcd_initial_state LcdMode.buffered :=
  ⟨Or.inl (by omega),
    (uc_lcd_set_pixel_out_of_range 200 0 1 (uc_lcd_initial_state LcdMode.buffered)
      (Or.inl (by omega))).1⟩

lemma set_inverted_toggle (invert : Nat) (s : LcdState) (h : invert ≠ s.inverted) :
    (uc_lcd_set_inverted invert s).buffer = s.buffer.map (fun b => b ^^^ 255) ∧
    (uc_lcd_set_inverted invert s).inverted = invert := by
  obtain ⟨mo, buf, inv, cc1, cc2, cp1, cp2, gl, dc, tr⟩ := s
  unfold uc_lcd_set_inverted
  rw [if_pos h]
  cases mo
  · exact ⟨rfl, rfl⟩
  · exact ⟨by rw [send_buffer_buffer], by rw [send_buffer_inverted]⟩

/-- Claim C4: starting from any state whose inversion flag is clear,
`set_inverted(1)` followed by `set_inverted(0)` restores every framebuffer
byte and the inversion flag; and `set_inverted(v)` with `v` equal to the
current flag changes nothing at all. -/
theorem uc_lcd_set_inverted_round_trip (s : LcdState) (h : s.inverted = 0) :
    (uc_lcd_set_inverted 0 (uc_lcd_set_inverted 1 s)).buffer = s.buffer ∧
    (uc_lcd_set_inverted 0 (uc_lcd_set_inverted 1 s)).inverted = s.inverted ∧
    (∀ (v : Nat) (t : LcdState), v = t.inverted → uc_lcd_set_inverted v t = t) := by
  have h1 : (1 : Nat) ≠ s.inverted := by omega
  obtain ⟨hb1, hi1⟩ := set_inverted_toggle 1 s h1
  have h0 : (0 : Nat) ≠ (uc_lcd_set_inverted 1 s).inverted := by omega
  obtain ⟨hb0, hi0⟩ := set_inverted_toggle 0 _ h0
  refine ⟨?_, ?_, ?_⟩
  · rw [hb0, hb1, List.map_map]
    have hcomp : ((fun b => b ^^^ 255) ∘ (fun b : Nat => b ^^^ 255)) = id := by
      funext b
      simp [Function.comp, Nat.xor_cancel_right]
    rw [hcomp, List.map_id]
  · rw [hi0, h]
  · intro v t hv
    unfold uc_lcd_set_inverted
    rw [if_neg]
    omega

/-- Witness for C4: concrete instance on the initial buffered-mode state. -/
theorem uc_lcd_set_inverted_round_trip_witness :
    (uc_lcd_initial_state LcdMode.buffered).inverted = 0 ∧
    (uc_lcd_set_inverted 0 (uc_lcd_set_inverted 1 (uc_lcd_initial_state LcdMode.buffered))).buffer
      = (uc_lcd_initial_state LcdMode.buffered).buffer :=
  ⟨rfl, (uc_lcd_set_inverted_round_trip (uc_lcd_initial_state LcdMode.buffered) rfl).1⟩

lemma clear_characterization (s : LcdState) :
    (uc_lcd_clear s).buffer =
      (if s.inverted ≠ 0 then List.replicate 1024 255 else List.replicate 1024 0) ∧
    (uc_lcd_clear s).inverted = s.inverted := by
  obtain ⟨mo, buf, inv, cc1, cc2, cp1, cp2, gl, dc, tr⟩ := s
  unfold uc_lcd_clear
  cases mo
  · exact ⟨rfl, rfl⟩
  · exact ⟨by rw [send_buffer_buffer], by rw [send_buffer_inverted]⟩

lemma fill_characterization (s : LcdState) :
    (uc_lcd_fill s).buffer =
      (if s.inverted ≠ 0 then List.replicate 1024 0 else List.replicate 1024 255) ∧
    (uc_lcd_fill s).inverted = s.inverted := by
  obtain ⟨mo, buf, inv, cc1, cc2, cp1, cp2, gl, dc, tr⟩ := s
  unfold uc_lcd_fill
  cases mo
  · exact ⟨rfl, rfl⟩
  · exact ⟨by rw [send_buffer_buffer], by rw [send_buffer_inverted]⟩

/-- Claim C5: `clear()` sets every framebuffer byte to 0x00 when not inverted
and to 0xFF when inverted; `fill()` sets every byte to 0xFF when not inverted
and to 0x00 when inverted; neither changes the inversion flag; and for every
pixel coordinate the mapped bit after `clear()` equals the inversion flag
(logical off) while after `fill()` it equals its complement (logical on). -/
theorem uc_lcd_clear_fill_spec (s : LcdState) :
    (uc_lcd_clear s).buffer =
      (if s.inverted ≠ 0 then List.replicate 1024 255 else List.replicate 1024 0) ∧
    (uc_lcd_clear s).inverted = s.inverted ∧
    (uc_lcd_fill s).buffer =
      (if s.inverted ≠ 0 then List.replicate 1024 0 else List.replicate 1024 255) ∧
    (uc_lcd_fill s).inverted = s.inverted ∧
    (∀ x y : Nat, x ≤ 127 → y ≤ 63 →
      ((uc_lcd_clear s).buffer.getD (uc_lcd_buffer_index x y) 0).testBit (y % 8)
          = decide (s.inverted ≠ 0) ∧
      ((uc_lcd_fill s).buffer.getD (uc_lcd_buffer_index x y) 0).testBit (y % 8)
          = decide (s.inverted = 0)) := by
  obtain ⟨hcb, hci⟩ := clear_characterization s
  obtain ⟨hfb, hfi⟩ := fill_characterization s
  refine ⟨hcb, hci, hfb, hfi, ?_⟩
  intro x y hx hy
  have hidx : uc_lcd_buffer_index x y < 1024 := buffer_index_lt x y hx hy
  have h8 : y % 8 < 8 := Nat.mod_lt _ (by omega)
  rw [hcb, hfb]
  by_cases hi : s.inverted ≠ 0
  · rw [if_pos hi, if_pos hi, getD_replicate _ _ _ hidx, getD_replicate _ _ _ hidx]
    constructor
    · rw [testBit_255 _ h8]
      simp [hi]
    · rw [Nat.zero_testBit]
      simp
      omega
  · rw [if_neg hi, if_neg hi, getD_replicate _ _ _ hidx, getD_replicate _ _ _ hidx]
    constructor
    · rw [Nat.zero_testBit]
      simp [hi]
    · rw [testBit_255 _ h8]
      simp
      omega

/-- Witness for C5: concrete instance at (x, y) = (10, 20) on the initial
buffered-mode state. -/
theorem uc_lcd_clear_fill_spec_witness :
    10 ≤ 127 ∧ 20 ≤ 63 ∧
    ((uc_lcd_clear (uc_lcd_initial_state LcdMode.buffered)).buffer.getD
        (uc_lcd_buffer_index 10 20) 0).testBit (20 % 8)
      = decide ((uc_lcd_initial_state LcdMode.buffered).inverted ≠ 0) :=
  ⟨by omega, by omega,
    ((uc_lcd_clear_fill_spec (uc_lcd_initial_state LcdMode.buffered)).2.2.2.2 10 20
      (by omega) (by omega)).1⟩

/-- Claim C6: in buffered mode, starting from a dirty state, the first
`flush()` performs exactly one full 1024-byte transmission (1024 data
transfers appear on the trace), keeps the framebuffer intact and clears the
dirty flag, and a second `flush()` with no intervening writes is the
identity (no transport activity, no state change) — so the two flushes
perform exactly one transmission in total. -/
theorem uc_lcd_flush_twice_once (s : LcdState) (hm : s.mode = LcdMode.buffered)
    (hd : s.dataChanged ≠ 0) :
    uc_lcd_data_count (uc_lcd_flush s).trace = uc_lcd_data_count s.trace + 1024 ∧
    (uc_lcd_flush s).buffer = s.buffer ∧
    (uc_lcd_flush s).dataChanged = 0 ∧
    uc_lcd_flush (uc_lcd_flush s) = uc_lcd_flush s := by
  have hflush : uc_lcd_flush s = { uc_lcd_send_buffer_to_lcd s with dataChanged := 0 } := by
    unfold uc_lcd_flush
    rw [if_pos hd]
  refine ⟨?_, ?_, ?_, ?_⟩
  · rw [hflush]
    exact data_count_send_buffer s
  · rw [hflush]
    exact send_buffer_buffer s
  · rw [hflush]
  · rw [hflush]
    unfold uc_lcd_flush
    rw [if_neg (by simp)]

/-- Witness for C6: the initial buffered-mode state with the dirty flag
forced on. -/
theorem uc_lcd_flush_twice_once_witness :
    ({ uc_lcd_initial_state LcdMode.buffered with dataChanged := 1 } : LcdState).mode
        = LcdMode.buffered ∧
    ({ uc_lcd_initial_state LcdMode.buffered with dataChanged := 1 } : LcdState).dataChanged ≠ 0 ∧
    uc_lcd_flush (uc_lcd_flush { uc_lcd_initial_state LcdMode.buffered with dataChanged := 1 })
      = uc_lcd_flush { uc_lcd_initial_state LcdMode.buffered with dataChanged := 1 } :=
  ⟨rfl, by simp [uc_lcd_initial_state],
    (uc_lcd_flush_twice_once { uc_lcd_initial_state LcdMode.buffered with dataChanged := 1 }
      rfl (by simp [uc_lcd_initial_state])).2.2.2⟩

/-- Claim C7: in immediate mode with GroupingCounter 0, the sequence
`enter(); enter(); leave()` performs zero transmissions (trace and buffer
untouched), every `set_pixel` issued while the counter is nonzero mutates
only the framebuffer, and one further `leave()` performs exactly one
full-buffer transmission (1024 data transfers), exactly on the counter's
transition to 0. -/
theorem uc_lcd_grouping_transmissions (s : LcdState) (hm : s.mode = LcdMode.immediate)
    (h0 : s.groupedLevel = 0) :
    (uc_lcd_leave_grouped_pixel_changes (uc_lcd_enter_grouped_pixel_changes
        (uc_lcd_enter_grouped_pixel_changes s))).trace = s.trace ∧
    (uc_lcd_leave_grouped_pixel_changes (uc_lcd_enter_grouped_pixel_changes
        (uc_lcd_enter_grouped_pixel_changes s))).buffer = s.buffer ∧
    (∀ (x y pixel : Nat) (t : LcdState), t.mode = LcdMode.immediate → t.groupedLevel ≠ 0 →
      ∃ b, uc_lcd_set_pixel x y pixel t = { t with buffer := b }) ∧
    uc_lcd_data_count (uc_lcd_leave_grouped_pixel_changes
        (uc_lcd_leave_grouped_pixel_changes (uc_lcd_enter_grouped_pixel_changes
          (uc_lcd_enter_grouped_pixel_changes s)))).trace
      = uc_lcd_data_count (uc_lcd_leave_grouped_pixel_changes
          (uc_lcd_enter_grouped_pixel_changes (uc_lcd_enter_grouped_pixel_changes s))).trace
        + 1024 ∧
    (uc_lcd_leave_grouped_pixel_changes (uc_lcd_leave_grouped_pixel_changes
        (uc_lcd_enter_grouped_pixel_changes (uc_lcd_enter_grouped_pixel_changes s)))).groupedLevel
      = 0 := by
  have e3 : uc_lcd_leave_grouped_pixel_changes (uc_lcd_enter_grouped_pixel_changes
      (uc_lcd_enter_grouped_pixel_changes s)) = { s with groupedLevel := 1 } := by
    simp [uc_lcd_enter_grouped_pixel_changes, uc_lcd_leave_grouped_pixel_changes, h0]
  have l2 : uc_lcd_leave_grouped_pixel_changes { s with groupedLevel := 1 }
      = uc_lcd_send_buffer_to_lcd { s with groupedLevel := 0 } := by
    simp [uc_lcd_leave_grouped_pixel_changes]
  refine ⟨by rw [e3], by rw [e3], ?_, ?_, ?_⟩
  · intro x y pixel t ht hgl
    obtain ⟨mo, buf, inv, cc1, cc2, cp1, cp2, gl, dc, tr⟩ := t
    simp only at ht hgl
    subst ht
    by_cases hx : 127 < x
    · exact ⟨buf, by simp only [uc_lcd_set_pixel, if_pos hx]⟩
    · by_cases hy : 63 < y
      · exact ⟨buf, by simp only [uc_lcd_set_pixel, if_neg hx, if_pos hy]⟩
      · exact ⟨buf.set (x % 64 + y / 8 * 64 + if x < 64 then 0 else 512)
          (if inv ≠ 0 then
            (if pixel ≠ 0 then
              buf.getD (x % 64 + y / 8 * 64 + if x < 64 then 0 else 512) 0
                &&& ((1 <<< (y % 8)) ^^^ 255)
            else
              buf.getD (x % 64 + y / 8 * 64 + if x < 64 then 0 else 512) 0
                ||| (1 <<< (y % 8)))
          else
            (if pixel ≠ 0 then
              buf.getD (x % 64 + y / 8 * 64 + if x < 64 then 0 else 512) 0
                ||| (1 <<< (y % 8))
            else
              buf.getD (x % 64 + y / 8 * 64 + if x < 64 then 0 else 512) 0
                &&& ((1 <<< (y % 8)) ^^^ 255))),
          by simp only [uc_lcd_set_pixel, if_neg hx, if_neg hy, if_neg hgl]⟩
  · rw [e3, l2, data_count_send_buffer]
  · rw [e3, l2, send_buffer_groupedLevel]

/-- Witness for C7: the initial immediate-mode state. -/
theorem uc_lcd_grouping_transmissions_witness :
    (uc_lcd_initial_state LcdMode.immediate).mode = LcdMode.immediate ∧
    (uc_lcd_initial_state LcdMode.immediate).groupedLevel = 0 ∧
    (uc_lcd_leave_grouped_pixel_changes (uc_lcd_enter_grouped_pixel_changes
        (uc_lcd_enter_grouped_pixel_changes (uc_lcd_initial_state LcdMode.immediate)))).trace
      = (uc_lcd_initial_state LcdMode.immediate).trace ∧
    (uc_lcd_leave_grouped_pixel_changes (uc_lcd_leave_grouped_pixel_changes
        (uc_lcd_enter_grouped_pixel_changes (uc_lcd_enter_grouped_pixel_changes
          (uc_lcd_initial_state LcdMode.immediate))))).groupedLevel = 0 :=
  ⟨rfl, rfl,
    (uc_lcd_grouping_transmissions (uc_lcd_initial_state LcdMode.immediate) rfl rfl).1,
    (uc_lcd_grouping_transmissions (uc_lcd_initial_state LcdMode.immediate) rfl rfl).2.2.2.2⟩

/-- Immediate-mode state exhibiting the column-cache comparison slip: the
cached column of chip 1 is 0 while its cached page is 3. -/
def uc_lcd_c8_state : LcdState :=
  { mode := LcdMode.immediate
    buffer := List.replicate 1024 0
    inverted := 0
    currentColumnChip1 := 0
    currentColumnChip2 := 0
    currentPageChip1 := 3
    currentPageChip2 := 0
    groupedLevel := 0
    dataChanged := 0
    trace := [] }

/-- Claim C8: the code compares the requested column against the chip's
cached PAGE (lcd.h line 688), not its cached column.  At this state the
requested column 3 differs from the cached column 0, so the spec requires a
column-set command and a cache update — but the call is a complete no-op
(no send, column cache still 0), because 3 happens to equal the cached
page. -/
theorem uc_lcd_set_column_cache_bug :
    uc_lcd_c8_state.currentColumnChip1 ≠ 3 ∧
    uc_lcd_set_column_chip_1 3 uc_lcd_c8_state = uc_lcd_c8_state ∧
    (uc_lcd_set_column_chip_1 3 uc_lcd_c8_state).trace = [] ∧
    (uc_lcd_set_column_chip_1 3 uc_lcd_c8_state).currentColumnChip1 = 0 := by
  refine ⟨by decide, ?_, ?_, ?_⟩ <;> rfl

/-- The logical levels a transport strategy presents to the display for one
`send`: the two chip selects, the command/data line, and the data byte. -/
structure Presented where
  csel1 : Bool
  csel2 : Bool
  commandData : Bool
  data : Nat
deriving DecidableEq, Repr

/-- Pin positions of the control lines inside their output registers
(`LCD_DMP_PIN_CSEL1` / `LCD_DMP_PIN_CSEL2` / `LCD_DMP_PIN_COMMAND_DATA`). -/
structure ParallelConfig where
  pinCsel1 : Nat
  pinCsel2 : Nat
  pinCommandData : Nat
deriving DecidableEq, Repr

/-- Parallel strategy with a shared control register (lcd.h lines 545-559,
`LCD_DMP_CONTROL_TOGETHER`), starting from cleared output ports (as
established by `uc_lcd_init`, lcd.h lines 1040-1049): the data port is set to
`data` and the three control levels are ORed into the control port at their
configured pins; the presented levels are the port bits at those pins. -/
def parallel_together_presented (cfg : ParallelConfig)
    (csel1 csel2 commandData data : Nat) : Presented :=
  let control := 0 ||| ((csel1 <<< cfg.pinCsel1) ||| (csel2 <<< cfg.pinCsel2) |||
      (commandData <<< cfg.pinCommandData))
  ⟨control.testBit cfg.pinCsel1, control.testBit cfg.pinCsel2,
    control.testBit cfg.pinCommandData, data⟩

/-- Parallel strategy with individual control registers (lcd.h lines
564-581, `LCD_DMP_CONTROL_INDIVIDUAL`), starting from cleared ports.  NOTE:
lines 566-568 of the C code shift `csel1` into ALL THREE control ports
(`csel1 << LCD_DMP_PIN_CSEL2` and `csel1 << LCD_DMP_PIN_COMMAND_DATA`); this
model reproduces those expressions exactly as written. -/
def parallel_individual_presented (cfg : ParallelConfig)
    (csel1 csel2 commandData data : Nat) : Presented :=
  let portCsel1 := 0 ||| (csel1 <<< cfg.pinCsel1)
  let portCsel2 := 0 ||| (csel1 <<< cfg.pinCsel2)
  let portCommandData := 0 ||| (csel1 <<< cfg.pinCommandData)
  ⟨portCsel1.testBit cfg.pinCsel1, portCsel2.testBit cfg.pinCsel2,
    portCommandData.testBit cfg.pinCommandData, data⟩

/-- Shift-register bit positions for the serial strategy
(`LCD_DMS_SR_BIT_CSEL1` / `LCD_DMS_SR_BIT_CSEL2` /
`LCD_DMS_SR_BIT_COMMAND_DATA`, a permutation of 0, 1, 2). -/
structure SerialConfig where
  srBitCsel1 : Nat
  srBitCsel2 : Nat
  srBitCommandData : Nat
deriving DecidableEq, Repr

/-- `uc_lcd_shift_out` (lcd.h lines 502-540): the eleven serial-line levels
in clock order — three instruction bits (bit 2 of the instruction byte is
tested, then the byte is left-shifted as a `uint8_t`, twice) followed by the
eight data bits, most significant first. -/
def uc_lcd_shift_out (instructions data : Nat) : List Bool :=
  let i1 := instructions
  let i2 := (i1 <<< 1) % 256
  let i3 := (i2 <<< 1) % 256
  let d1 := data
  let d2 := (d1 <<< 1) % 256
  let d3 := (d2 <<< 1) % 256
  let d4 := (d3 <<< 1) % 256
  let d5 := (d4 <<< 1) % 256
  let d6 := (d5 <<< 1) % 256
  let d7 := (d6 <<< 1) % 256
  let d8 := (d7 <<< 1) % 256
  [decide (i1 &&& 0b00000100 ≠ 0), decide (i2 &&& 0b00000100 ≠ 0),
   decide (i3 &&& 0b00000100 ≠ 0),
   decide (d1 &&& 0b10000000 ≠ 0), decide (d2 &&& 0b10000000 ≠ 0),
   decide (d3 &&& 0b10000000 ≠ 0), decide (d4 &&& 0b10000000 ≠ 0),
   decide (d5 &&& 0b10000000 ≠ 0), decide (d6 &&& 0b10000000 ≠ 0),
   decide (d7 &&& 0b10000000 ≠ 0), decide (d8 &&& 0b10000000 ≠ 0)]

/-- Modelled from the spec: the 74HC595 shift-register chain described in the
header comment (lcd.h lines 68-87) — not itself code of the repository.
Each clock pulse shifts the current serial level into the chain, so after
all pulses the levels occupy bit positions in reverse order of arrival: the
first register (bits 0-7, Qa = LSB = last level shifted) holds the data
byte, and the second register's Qa/Qb/Qc (bits 8-10 here) hold the three
instruction levels. -/
def shift_chain_value (bits : List Bool) : Nat :=
  bits.foldl (fun acc b => 2 * acc + (if b then 1 else 0)) 0

/-- Serial strategy (lcd.h lines 588-592 plus `uc_lcd_shift_out`): the
instruction byte packs the three control levels at the configured
shift-register bit positions; the presented levels are read back from the
shift-register chain after the latch pulse. -/
def serial_presented (cfg : SerialConfig)
    (csel1 csel2 commandData data : Nat) : Presented :=
  let instructions := (csel1 <<< cfg.srBitCsel1) ||| (csel2 <<< cfg.srBitCsel2) |||
      (commandData <<< cfg.srBitCommandData)
  let v := shift_chain_value (uc_lcd_shift_out instructions data)
  ⟨v.testBit (8 + cfg.srBitCsel1), v.testBit (8 + cfg.srBitCsel2),
    v.testBit (8 + cfg.srBitCommandData), v &&& 255⟩

/-- The shared-control parallel strategy and the serial strategy agree on
the presented logical levels for every input tuple with one-bit controls and
a byte of data (representative configuration: CSEL1 at bit 0, CSEL2 at
bit 1, command/data at bit 2). -/
lemma parallel_serial_agree :
    ∀ c1 < 2, ∀ c2 < 2, ∀ cd < 2, ∀ d < 256,
      parallel_together_presented ⟨0, 1, 2⟩ c1 c2 cd d
        = serial_presented ⟨0, 1, 2⟩ c1 c2 cd d := by
  decide

/-- Claim C9: with the representative configuration (CSEL1 at bit 0, CSEL2
at bit 1, command/data at bit 2), the shared-control parallel strategy and
the serial strategy both present (0, 1, 1, 0xAB) faithfully, but the
individual-control parallel strategy disagrees at that input: it presents
csel1's level (0) on the CSEL2 and command/data lines as well, so swapping
to it does change higher-layer behavior. -/
theorem uc_lcd_transport_mismatch :
    parallel_together_presented ⟨0, 1, 2⟩ 0 1 1 0xAB = ⟨false, true, true, 0xAB⟩ ∧
    serial_presented ⟨0, 1, 2⟩ 0 1 1 0xAB = ⟨false, true, true, 0xAB⟩ ∧
    parallel_individual_presented ⟨0, 1, 2⟩ 0 1 1 0xAB = ⟨false, false, false, 0xAB⟩ ∧
    parallel_individual_presented ⟨0, 1, 2⟩ 0 1 1 0xAB
      ≠ parallel_together_presented ⟨0, 1, 2⟩ 0 1 1 0xAB := by
  decide

/-- Claim C10 counterexample: `uc_lcd_turn_on` and `uc_lcd_turn_off` send
their bytes with the command/data flag 0 — i.e. as COMMAND transfers (the
device's command/data pin is LOW for commands, lcd.h line 22), exactly like
`set_page`, and unlike a data transfer such as `uc_lcd_write_chip1` which
uses flag 1.  So the claim's "as data transfers" is false. -/
theorem uc_lcd_turn_on_is_command :
    ((uc_lcd_turn_on (uc_lcd_initial_state LcdMode.buffered)).trace.getD 0
        ⟨0, 0, 0, 0⟩).commandData = 0 ∧
    ((uc_lcd_turn_off (uc_lcd_initial_state LcdMode.buffered)).trace.getD 0
        ⟨0, 0, 0, 0⟩).commandData = 0 ∧
    ((uc_lcd_write_chip1 5 (uc_lcd_initial_state LcdMode.buffered)).trace.getD 0
        ⟨0, 0, 0, 0⟩).commandData = 1 ∧
    ¬ ((uc_lcd_turn_on (uc_lcd_initial_state LcdMode.buffered)).trace.getD 0
        ⟨0, 0, 0, 0⟩).commandData = 1 := by
  refine ⟨rfl, rfl, rfl, by decide⟩

/-- Claim C10 (amended): the byte encodings are bit-exact as claimed —
`turn_on` sends 0x3F and `turn_off` sends 0x3E, but as command transfers
(command/data flag 0), not data transfers; `set_startline(l)` sends
`0b11000000 | l`, `set_page(p)` sends `0b10111000 | (p & 0b111)` and
`set_column(c)` sends `0b01000000 | (c & 0b111111)` as command transfers;
data writes carry flag 1; and every transfer addressed to chip 1 asserts
chipSelect1 only (chip 2 analogous), while turn_on/turn_off/set_startline
address both chips.  (Stated in buffered mode, where every such call sends
unconditionally.) -/
theorem uc_lcd_command_encoding (s : LcdState) (hm : s.mode = LcdMode.buffered)
    (l p c d : Nat) :
    (uc_lcd_turn_on s).trace = s.trace ++ [⟨1, 1, 0, 0x3F⟩] ∧
    (uc_lcd_turn_off s).trace = s.trace ++ [⟨1, 1, 0, 0x3E⟩] ∧
    (uc_lcd_set_startline l s).trace = s.trace ++ [⟨1, 1, 0, 0b11000000 ||| l⟩] ∧
    (uc_lcd_set_page_chip_1 p s).trace
      = s.trace ++ [⟨1, 0, 0, 0b10111000 ||| (p &&& 0b00000111)⟩] ∧
    (uc_lcd_set_page_chip_2 p s).trace
      = s.trace ++ [⟨0, 1, 0, 0b10111000 ||| (p &&& 0b00000111)⟩] ∧
    (uc_lcd_set_column_chip_1 c s).trace
      = s.trace ++ [⟨1, 0, 0, 0b01000000 ||| (c &&& 0b00111111)⟩] ∧
    (uc_lcd_set_column_chip_2 c s).trace
      = s.trace ++ [⟨0, 1, 0, 0b01000000 ||| (c &&& 0b00111111)⟩] ∧
    (uc_lcd_write_chip1 d s).trace = s.trace ++ [⟨1, 0, 1, d⟩] ∧
    (uc_lcd_write_chip2 d s).trace = s.trace ++ [⟨0, 1, 1, d⟩] := by
  obtain ⟨mo, buf, inv, cc1, cc2, cp1, cp2, gl, dc, tr⟩ := s
  simp only at hm
  subst hm
  exact ⟨rfl, rfl, rfl, rfl, rfl, rfl, rfl, rfl, rfl⟩

/-- Witness for C10 (amended): concrete instance on the initial
buffered-mode state. -/
theorem uc_lcd_command_encoding_witness :
    (uc_lcd_initial_state LcdMode.buffered).mode = LcdMode.buffered ∧
    (uc_lcd_turn_on (uc_lcd_initial_state LcdMode.buffered)).trace
      = (uc_lcd_initial_state LcdMode.buffered).trace ++ [⟨1, 1, 0, 0x3F⟩] ∧
    (uc_lcd_write_chip1 7 (uc_lcd_initial_state LcdMode.buffered)).trace
      = (uc_lcd_initial_state LcdMode.buffered).trace ++ [⟨1, 0, 1, 7⟩] :=
  ⟨rfl,
    (uc_lcd_command_encoding (uc_lcd_initial_state LcdMode.buffered) rfl 5 3 9 7).1,
    (uc_lcd_command_encoding (uc_lcd_initial_state LcdMode.buffered) rfl 5 3 9 7).2.2.2.2.2.2.2.1⟩
